import Mathlib

/-!
Shallow embedding of `src/NeonSqlUpload.py`: a one-shot CSV-to-SQL loading
script.  The script loads an environment file, reads the connection string
from `os.environ["database_url"]`, creates an engine, reads
`data/loan.csv` into a DataFrame, writes it to table `loan_data` with
`if_exists="replace", index=False`, counts the rows in the destination
table with `SELECT COUNT(*)` through a `with engine.connect()` block and
`scalar_one()`, and prints a match or mismatch message.

The relational store, the file system and the environment variables are
modelled as explicit finite maps inside a `World`; the pandas and
SQLAlchemy calls the script makes are modelled by their documented
semantics (`read_csv` keeps the header order and attaches a positional
range index; `to_sql` with `if_exists="replace"` drops and recreates the
table; `scalar_one` demands exactly one result row).
-/

namespace NeonSqlUpload

/-- A cell of the CSV file or of a database table, kept as its raw text:
the script never inspects cell values (type inference inside pandas is not
part of any claim), only row counts and column names. -/
abbrev Cell := String

/-- A data row: one cell per column, positionally aligned. -/
abbrev Row := List Cell

/-- A delimited text file with a header line: what `pd.read_csv` consumes. -/
structure CsvFile where
  header  : List String
  records : List Row
deriving DecidableEq

/-- The in-memory tabular structure produced by `pd.read_csv`: ordered
columns, ordered rows and the synthetic positional `RangeIndex` pandas
attaches to every freshly read frame. -/
structure DataFrame where
  cols  : List String
  rows  : List Row
  index : List Nat
deriving DecidableEq

/-- `pd.read_csv` (line 15): column order follows the file header, row
order follows the file, and the frame gets a positional range index. -/
def readCsv (f : CsvFile) : DataFrame :=
  { cols := f.header, rows := f.records, index := List.range f.records.length }

/-- A named table's contents in the relational store. -/
structure Table where
  cols : List String
  rows : List Row
deriving DecidableEq

/-- The relational store: a finite map from table names to tables. -/
abbrev Store := List (String × Table)

/-- Look a table up by name. -/
def lookupTable : Store → String → Option Table
  | [], _ => none
  | (n, t) :: rest, name => if n = name then some t else lookupTable rest name

/-- Create-or-replace a table binding: the old rows and schema under the
same name are dropped and the new table is installed. -/
def setTable : Store → String → Table → Store
  | [], name, t => [(name, t)]
  | (n, t0) :: rest, name, t =>
    if n = name then (name, t) :: rest else (n, t0) :: setTable rest name t

/-- The table written by `df.to_sql(..., index=writeIndex)`: with
`writeIndex = true` the frame's positional index would become a leading
`index` column; the script passes `index=False`, so the table's columns
are exactly the frame's columns. -/
def tableOfDf (df : DataFrame) (writeIndex : Bool) : Table :=
  if writeIndex then
    { cols := "index" :: df.cols,
      rows := List.zipWith (fun i r => Nat.repr i :: r) df.index df.rows }
  else
    { cols := df.cols, rows := df.rows }

/-- `df.to_sql(name, engine, if_exists="replace", index=writeIndex)`
(line 19): full replace semantics on the named table. -/
def toSqlReplace (df : DataFrame) (name : String) (store : Store)
    (writeIndex : Bool) : Store :=
  setTable store name (tableOfDf df writeIndex)

/-- The error kinds the script can raise: a missing config key
(`os.environ[...]` raises `KeyError`), a missing input file
(`pd.read_csv` raises `FileNotFoundError`), an unreachable store
(`ConnectionError`-kind) and a failed or ill-formed count query
(`QueryError`-kind, covering `scalar_one` cardinality failures). -/
inductive PipeError where
  | keyError (key : String)
  | fileNotFoundError
  | connectionError
  | queryError
deriving DecidableEq

/-- SQLAlchemy's `Result.scalar_one()` (line 35): returns the single
scalar of a one-row result and raises when the result holds zero rows or
more than one row. -/
def scalarOne : List Nat → Except PipeError Nat
  | [x] => Except.ok x
  | _ => Except.error PipeError.queryError

/-- Executing `SELECT COUNT(*) FROM <name>` (lines 25-35): fails as a
connection error when the store is unreachable, fails as a query error
when the table does not exist, and otherwise returns the one-row result
holding the row count. -/
def countQuery (connOk : Bool) (store : Store) (name : String) :
    Except PipeError (List Nat) :=
  if connOk then
    match lookupTable store name with
    | some t => Except.ok [t.rows.length]
    | none => Except.error PipeError.queryError
  else
    Except.error PipeError.connectionError

/-- The Verifier's outcome, `Match(count)` or
`Mismatch(localCount, remoteCount)`, determined by the comparison on
line 39. -/
inductive Report where
  | matched (count : Nat)
  | mismatched (localCount remoteCount : Nat)
deriving DecidableEq

/-- The comparison on line 39: `if neon_row == df_row`. -/
def verifierReport (neonRow dfRow : Nat) : Report :=
  if neonRow = dfRow then Report.matched neonRow
  else Report.mismatched dfRow neonRow

/-- The line printed on lines 40 and 42. -/
def verifyMessage (dfRow neonRow : Nat) : String :=
  if neonRow = dfRow then
    "Upload successful: " ++ Nat.repr neonRow ++ " = " ++ Nat.repr dfRow
      ++ ". Row counts match."
  else
    "Upload Error: local=" ++ Nat.repr dfRow ++ ", neon=" ++ Nat.repr neonRow
      ++ ". Row counts do not match."

/-- The Verifier (lines 22-42): run the count query, extract the single
scalar, and compare the store's row count against the frame's. -/
def verifyStage (dfRow : Nat) (connOk : Bool) (store : Store) :
    Except PipeError (Report × String) :=
  match countQuery connOk store "loan_data" with
  | Except.error e => Except.error e
  | Except.ok rows =>
    match scalarOne rows with
    | Except.error e => Except.error e
    | Except.ok neonRow =>
      Except.ok (verifierReport neonRow dfRow, verifyMessage dfRow neonRow)

/-- Resource events of one run: engine creation (line 12), input file
read (line 15), the engine-mediated upload (line 19), and the explicit
connection's open, query execution, and close (lines 34-35). -/
inductive Event where
  | engineCreate
  | fileRead (path : String)
  | toSqlUpload (table : String)
  | connOpen
  | queryExec
  | connClose
deriving DecidableEq

/-- The external world one run executes in: the environment variables
visible after `load_dotenv`, the file system, the relational store's
prior contents, whether the store is reachable, and `external`, the
out-of-band modification other agents apply to the shared store between
the upload and the verification query (identity when nobody interferes;
the spec's mismatch scenario truncates the table here). -/
structure World where
  vars : List (String × String)
  files : List (String × CsvFile)
  store : Store
  connOk : Bool
  external : Store → Store

/-- Key lookup in an association list (environment variables, files). -/
def lookupKey {α : Type} : List (String × α) → String → Option α
  | [], _ => none
  | (k, v) :: rest, key => if k = key then some v else lookupKey rest key

/-- Everything observable after one run: the store's final contents, the
lines printed to standard output, the resource-event trace, the
Verifier's report when it ran, and the uncaught error when the run
aborted (`error = none` is exit status zero). -/
structure RunResult where
  store : Store
  output : List String
  trace : List Event
  report : Option Report
  error : Option PipeError
deriving DecidableEq

/-- The whole script, top to bottom: config lookup (line 9), engine
creation (line 12), CSV read (line 15), replace-upload of table
`loan_data` with `index=False` (line 19), then the verification query
inside `with engine.connect()` (lines 34-35) and the comparison print
(lines 39-42).  No step catches an error: the first failure is returned
unchanged and nothing after it runs. -/
def runScript (w : World) : RunResult :=
  match lookupKey w.vars "database_url" with
  | none =>
    { store := w.store, output := [], trace := [], report := none,
      error := some (PipeError.keyError "database_url") }
  | some _connStr =>
    match lookupKey w.files "data/loan.csv" with
    | none =>
      { store := w.store, output := [], trace := [Event.engineCreate],
        report := none, error := some PipeError.fileNotFoundError }
    | some file =>
      if w.connOk then
        match verifyStage (readCsv file).rows.length true
            (w.external (toSqlReplace (readCsv file) "loan_data" w.store false)) with
        | Except.error e =>
          { store := w.external (toSqlReplace (readCsv file) "loan_data" w.store false),
            output := [],
            trace := [Event.engineCreate, Event.fileRead "data/loan.csv",
                      Event.toSqlUpload "loan_data", Event.connOpen,
                      Event.queryExec, Event.connClose],
            report := none, error := some e }
        | Except.ok (rep, msg) =>
          { store := w.external (toSqlReplace (readCsv file) "loan_data" w.store false),
            output := [msg],
            trace := [Event.engineCreate, Event.fileRead "data/loan.csv",
                      Event.toSqlUpload "loan_data", Event.connOpen,
                      Event.queryExec, Event.connClose],
            report := some rep, error := none }
      else
        { store := w.store, output := [],
          trace := [Event.engineCreate, Event.fileRead "data/loan.csv"],
          report := none, error := some PipeError.connectionError }

/-- The events that happen while the explicit connection of lines 34-35
is open: everything strictly between `connOpen` and `connClose`. -/
def connWindow (tr : List Event) : List Event :=
  ((tr.dropWhile (fun e => !(e == Event.connOpen))).drop 1).takeWhile
    (fun e => !(e == Event.connClose))

/-- Whether the upload is performed through the explicit connection,
i.e. whether a `toSqlUpload` event falls inside the open window of that
connection. -/
def uploadUsesConn (tr : List Event) : Bool :=
  (connWindow tr).any fun e =>
    match e with
    | Event.toSqlUpload _ => true
    | _ => false

/-! ### Concrete worlds used by witnesses and counterexamples -/

/-- The spec's scenario file: columns `id,amount`, rows
`(1,100.0),(2,200.5),(3,50.0)`. -/
def scenarioFile : CsvFile :=
  { header := ["id", "amount"],
    records := [["1", "100.0"], ["2", "200.5"], ["3", "50.0"]] }

/-- A header-only file: zero data rows. -/
def emptyFile : CsvFile :=
  { header := ["id", "amount"], records := [] }

/-- Out-of-band truncation of `loan_data` to its first two rows, the
spec's mismatch scenario. -/
def truncateTwo (s : Store) : Store :=
  match lookupTable s "loan_data" with
  | some t => setTable s "loan_data" { cols := t.cols, rows := t.rows.take 2 }
  | none => s

/-- A well-formed world holding the scenario file, with no interference. -/
def scenarioWorld : World :=
  { vars := [("database_url", "postgresql://user:pw@host/db")],
    files := [("data/loan.csv", scenarioFile)],
    store := [], connOk := true, external := id }

/-- The scenario world with the destination table externally truncated to
two rows between upload and verification. -/
def truncatedWorld : World :=
  { vars := [("database_url", "postgresql://user:pw@host/db")],
    files := [("data/loan.csv", scenarioFile)],
    store := [], connOk := true, external := truncateTwo }

/-- A world holding a header-only file. -/
def emptyFileWorld : World :=
  { vars := [("database_url", "postgresql://user:pw@host/db")],
    files := [("data/loan.csv", emptyFile)],
    store := [], connOk := true, external := id }

/-! ### Store lemmas -/

/-- Looking up the name just written finds exactly the written table. -/
theorem lookupTable_setTable (s : Store) (name : String) (t : Table) :
    lookupTable (setTable s name t) name = some t := by
  induction s with
  | nil => simp [setTable, lookupTable]
  | cons p rest ih =>
    obtain ⟨n, t0⟩ := p
    by_cases h : n = name
    · simp [setTable, lookupTable, h]
    · simp [setTable, lookupTable, h, ih]

/-- Writing the same name twice keeps only the second write. -/
theorem setTable_setTable (s : Store) (name : String) (t1 t2 : Table) :
    setTable (setTable s name t1) name t2 = setTable s name t2 := by
  induction s with
  | nil => simp [setTable]
  | cons p rest ih =>
    obtain ⟨n, t0⟩ := p
    by_cases h : n = name
    · simp [setTable, h]
    · simp [setTable, h, ih]

/-- On a reachable store holding table `loan_data`, the Verifier
succeeds and reports the comparison of the stored row count against the
frame's row count. -/
theorem verifyStage_of_lookup (dfRow : Nat) (store : Store) (t : Table)
    (ht : lookupTable store "loan_data" = some t) :
    verifyStage dfRow true store =
      Except.ok (verifierReport t.rows.length dfRow,
        verifyMessage dfRow t.rows.length) := by
  simp [verifyStage, countQuery, ht, scalarOne]

/-- Shape of a run in which config, file and connection are all present
and the tampered store still holds `loan_data`. -/
theorem runScript_ok (w : World) (cs : String) (file : CsvFile) (t : Table)
    (hv : lookupKey w.vars "database_url" = some cs)
    (hf : lookupKey w.files "data/loan.csv" = some file)
    (hc : w.connOk = true)
    (ht : lookupTable
        (w.external (toSqlReplace (readCsv file) "loan_data" w.store false))
        "loan_data" = some t) :
    runScript w =
      { store := w.external (toSqlReplace (readCsv file) "loan_data" w.store false),
        output := [verifyMessage file.records.length t.rows.length],
        trace := [Event.engineCreate, Event.fileRead "data/loan.csv",
                  Event.toSqlUpload "loan_data", Event.connOpen,
                  Event.queryExec, Event.connClose],
        report := some (verifierReport t.rows.length file.records.length),
        error := none } := by
  rw [runScript, hv, hf]
  simp only [hc, if_true]
  rw [verifyStage_of_lookup _ _ t ht]
  simp [readCsv]

/-- Without interference, the store right before verification is the
prior store with `loan_data` replaced by exactly the file's contents. -/
theorem external_store_of_id (w : World) (file : CsvFile)
    (he : w.external = id) :
    w.external (toSqlReplace (readCsv file) "loan_data" w.store false)
      = setTable w.store "loan_data"
          { cols := file.header, rows := file.records } := by
  simp [he, toSqlReplace, tableOfDf, readCsv]

/-- In an interference-free successful run, the destination table holds
exactly the file's header and records. -/
theorem lookup_runScript_id (w : World) (cs : String) (file : CsvFile)
    (hv : lookupKey w.vars "database_url" = some cs)
    (hf : lookupKey w.files "data/loan.csv" = some file)
    (hc : w.connOk = true) (he : w.external = id) :
    lookupTable (runScript w).store "loan_data"
      = some { cols := file.header, rows := file.records } := by
  have hst := external_store_of_id w file he
  have ht : lookupTable
      (w.external (toSqlReplace (readCsv file) "loan_data" w.store false))
      "loan_data" = some { cols := file.header, rows := file.records } := by
    rw [hst]; exact lookupTable_setTable _ _ _
  rw [runScript_ok w cs file _ hv hf hc ht]
  exact ht

/-! ### Claim theorems -/

/-- C1: for every dataset (including a zero-row one), a successful
upload — config and file present, store reachable, no interference —
leaves `loan_data` holding exactly the dataset's rows, so its
`COUNT(*)` equals the dataset's row count; on a header-only file the
Verifier reports `Match(0)` and prints the `0 = 0` success line. -/
theorem c1_roundtrip_count (w : World) (cs : String) (file : CsvFile)
    (hv : lookupKey w.vars "database_url" = some cs)
    (hf : lookupKey w.files "data/loan.csv" = some file)
    (hc : w.connOk = true) (he : w.external = id) :
    lookupTable (runScript w).store "loan_data"
      = some { cols := file.header, rows := file.records } ∧
    countQuery true (runScript w).store "loan_data"
      = Except.ok [file.records.length] ∧
    (runScript w).error = none ∧
    (file.records = [] →
      (runScript w).report = some (Report.matched 0) ∧
      (runScript w).output = ["Upload successful: 0 = 0. Row counts match."]) := by
  have hst := external_store_of_id w file he
  have ht : lookupTable
      (w.external (toSqlReplace (readCsv file) "loan_data" w.store false))
      "loan_data" = some { cols := file.header, rows := file.records } := by
    rw [hst]; exact lookupTable_setTable _ _ _
  have hrun := runScript_ok w cs file _ hv hf hc ht
  refine ⟨lookup_runScript_id w cs file hv hf hc he, ?_, by rw [hrun], ?_⟩
  · rw [hrun]
    simp [countQuery, ht]
  · intro hrec
    rw [hrun, hrec]
    refine ⟨rfl, ?_⟩
    show [verifyMessage 0 0] = ["Upload successful: 0 = 0. Row counts match."]
    decide

/-- C1 witness: the header-only world runs to a zero-row table, a
matching count, no error and the `Match(0)` report. -/
theorem c1_roundtrip_count_witness :
    lookupTable (runScript emptyFileWorld).store "loan_data"
      = some { cols := ["id", "amount"], rows := ([] : List Row) } ∧
    countQuery true (runScript emptyFileWorld).store "loan_data"
      = Except.ok [0] ∧
    (runScript emptyFileWorld).error = none ∧
    (runScript emptyFileWorld).report = some (Report.matched 0) ∧
    (runScript emptyFileWorld).output
      = ["Upload successful: 0 = 0. Row counts match."] := by
  have h := c1_roundtrip_count emptyFileWorld "postgresql://user:pw@host/db"
    emptyFile (by decide) (by decide) rfl rfl
  exact ⟨h.1, h.2.1, h.2.2.1, (h.2.2.2 rfl).1, (h.2.2.2 rfl).2⟩

/-- C2: the Verifier reports a match exactly when the two counts are
equal; in the equal case the printed line is exactly
`Upload successful: n = n. Row counts match.`; the three-row scenario
world prints exactly `Upload successful: 3 = 3. Row counts match.`. -/
theorem c2_match_report (neonRow dfRow : Nat) :
    (verifierReport neonRow dfRow = Report.matched neonRow ↔ neonRow = dfRow) ∧
    (neonRow = dfRow →
      verifyMessage dfRow neonRow =
        "Upload successful: " ++ Nat.repr neonRow ++ " = " ++ Nat.repr neonRow
          ++ ". Row counts match.") ∧
    (runScript scenarioWorld).output
      = ["Upload successful: 3 = 3. Row counts match."] ∧
    (runScript scenarioWorld).report = some (Report.matched 3) := by
  refine ⟨?_, ?_, by decide, by decide⟩
  · constructor
    · intro h
      by_contra hne
      simp [verifierReport, hne] at h
    · intro h
      simp [verifierReport, h]
  · intro h
    subst h
    simp [verifyMessage]

/-- C2 witness: at counts `3 = 3` the printed line is the exact success
message. -/
theorem c2_match_report_witness :
    verifyMessage 3 3 = "Upload successful: " ++ Nat.repr 3 ++ " = "
      ++ Nat.repr 3 ++ ". Row counts match." :=
  (c2_match_report 3 3).2.1 rfl

/-- C4: uploading `d1` and then `d2` to the same table name, starting
from any prior store, leaves the table holding exactly `d2`'s columns
and rows — the previous binding is replaced, not appended to. -/
theorem c4_replace_semantics (s : Store) (name : String) (d1 d2 : DataFrame) :
    lookupTable (toSqlReplace d2 name (toSqlReplace d1 name s false) false) name
      = some { cols := d2.cols, rows := d2.rows } ∧
    toSqlReplace d2 name (toSqlReplace d1 name s false) false
      = toSqlReplace d2 name s false := by
  constructor
  · have h := lookupTable_setTable (toSqlReplace d1 name s false) name
      (tableOfDf d2 false)
    simpa [toSqlReplace, tableOfDf] using h
  · simp [toSqlReplace, setTable_setTable]

/-- C9: when `database_url` is absent from the environment, the run
aborts immediately with a `KeyError` on that key: the store is
untouched, nothing is printed, and the trace shows no file read, no
upload and no connection. -/
theorem c9_missing_config (w : World)
    (hv : lookupKey w.vars "database_url" = none) :
    runScript w =
      { store := w.store, output := [], trace := [], report := none,
        error := some (PipeError.keyError "database_url") } ∧
    (∀ p, Event.fileRead p ∉ (runScript w).trace) ∧
    Event.connOpen ∉ (runScript w).trace := by
  have h : runScript w =
      { store := w.store, output := [], trace := [], report := none,
        error := some (PipeError.keyError "database_url") } := by
    rw [runScript, hv]
  exact ⟨h, by rw [h]; intro p; simp, by rw [h]; simp⟩

/-- C9 witness: an empty environment aborts with the `KeyError`. -/
theorem c9_missing_config_witness :
    runScript { vars := [], files := [("data/loan.csv", scenarioFile)],
                store := [], connOk := true, external := id } =
      { store := [], output := [], trace := [], report := none,
        error := some (PipeError.keyError "database_url") } :=
  (c9_missing_config
    { vars := [], files := [("data/loan.csv", scenarioFile)],
      store := [], connOk := true, external := id } rfl).1

/-- C10: the destination table's columns are exactly the CSV header —
the upload passes `index=False`, so the frame's positional index is not
written; with `index=True` a leading `index` column would have been
added. -/
theorem c10_no_index_column (w : World) (cs : String) (file : CsvFile)
    (hv : lookupKey w.vars "database_url" = some cs)
    (hf : lookupKey w.files "data/loan.csv" = some file)
    (hc : w.connOk = true) (he : w.external = id) :
    (∃ t, lookupTable (runScript w).store "loan_data" = some t ∧
      t.cols = file.header ∧ t.rows = file.records) ∧
    (tableOfDf (readCsv file) false).cols = file.header ∧
    (tableOfDf (readCsv file) true).cols = "index" :: file.header := by
  have h1 := lookup_runScript_id w cs file hv hf hc he
  exact ⟨⟨_, h1, rfl, rfl⟩, by simp [tableOfDf, readCsv],
    by simp [tableOfDf, readCsv]⟩

/-- C10 witness: the scenario run's table columns are `id, amount`,
with no `index` column. -/
theorem c10_no_index_column_witness :
    ∃ t, lookupTable (runScript scenarioWorld).store "loan_data" = some t ∧
      t.cols = ["id", "amount"] ∧ t.rows = scenarioFile.records :=
  (c10_no_index_column scenarioWorld "postgresql://user:pw@host/db"
    scenarioFile (by decide) (by decide) rfl rfl).1

/-- A world whose environment has the key but whose input file is
missing. -/
def noFileWorld : World :=
  { vars := [("database_url", "postgresql://user:pw@host/db")],
    files := [], store := [], connOk := true, external := id }

/-- The scenario world with the store unreachable. -/
def downWorld : World :=
  { vars := [("database_url", "postgresql://user:pw@host/db")],
    files := [("data/loan.csv", scenarioFile)],
    store := [], connOk := false, external := id }

/-- The scenario world where the table is dropped out-of-band between
upload and verification, so the count query fails. -/
def droppedWorld : World :=
  { vars := [("database_url", "postgresql://user:pw@host/db")],
    files := [("data/loan.csv", scenarioFile)],
    store := [], connOk := true, external := fun _ => [] }

/-- Store contents after a successful run: the prior store with
`loan_data` replaced, then whatever interference `external` applies. -/
theorem runScript_store_ok (w : World) (cs : String) (file : CsvFile)
    (hv : lookupKey w.vars "database_url" = some cs)
    (hf : lookupKey w.files "data/loan.csv" = some file)
    (hc : w.connOk = true) :
    (runScript w).store
      = w.external (toSqlReplace (readCsv file) "loan_data" w.store false) := by
  rw [runScript, hv, hf]
  simp only [hc, if_true]
  cases hvs : verifyStage (readCsv file).rows.length true
      (w.external (toSqlReplace (readCsv file) "loan_data" w.store false)) with
  | error e => rfl
  | ok pair => cases pair; rfl

/-- Every run produces one of four traces: abort at config lookup,
abort at file read, abort at upload, or the full trace with one
connection window around the query. -/
theorem runScript_trace_cases (w : World) :
    (runScript w).trace = [] ∨
    (runScript w).trace = [Event.engineCreate] ∨
    (runScript w).trace = [Event.engineCreate, Event.fileRead "data/loan.csv"] ∨
    (runScript w).trace = [Event.engineCreate, Event.fileRead "data/loan.csv",
      Event.toSqlUpload "loan_data", Event.connOpen, Event.queryExec,
      Event.connClose] := by
  rw [runScript]
  split
  · exact Or.inl rfl
  · split
    · exact Or.inr (Or.inl rfl)
    · split
      · split
        · exact Or.inr (Or.inr (Or.inr rfl))
        · exact Or.inr (Or.inr (Or.inr rfl))
      · exact Or.inr (Or.inr (Or.inl rfl))

/-- C3: whenever verification sees a table whose row count differs from
the frame's — here because `external` interference changed the table
after the upload — the run prints exactly the
`Upload Error: local=l, neon=r. Row counts do not match.` line, reports
`Mismatch(local, remote)`, and still finishes without an error (exit
status zero). -/
theorem c3_mismatch_report (w : World) (cs : String) (file : CsvFile)
    (t : Table)
    (hv : lookupKey w.vars "database_url" = some cs)
    (hf : lookupKey w.files "data/loan.csv" = some file)
    (hc : w.connOk = true)
    (ht : lookupTable
        (w.external (toSqlReplace (readCsv file) "loan_data" w.store false))
        "loan_data" = some t)
    (hne : t.rows.length ≠ file.records.length) :
    (runScript w).error = none ∧
    (runScript w).report
      = some (Report.mismatched file.records.length t.rows.length) ∧
    (runScript w).output
      = ["Upload Error: local=" ++ Nat.repr file.records.length ++ ", neon="
          ++ Nat.repr t.rows.length ++ ". Row counts do not match."] := by
  have hrun := runScript_ok w cs file t hv hf hc ht
  rw [hrun]
  refine ⟨rfl, ?_, ?_⟩
  · simp [verifierReport, hne]
  · simp [verifyMessage, hne]

/-- C3 witness: the truncated-table scenario ends with exit status zero,
report `Mismatch(3, 2)` and the exact mismatch line. -/
theorem c3_mismatch_report_witness :
    (runScript truncatedWorld).error = none ∧
    (runScript truncatedWorld).report = some (Report.mismatched 3 2) ∧
    (runScript truncatedWorld).output
      = ["Upload Error: local=3, neon=2. Row counts do not match."] := by
  have h := c3_mismatch_report truncatedWorld "postgresql://user:pw@host/db"
    scenarioFile
    { cols := ["id", "amount"], rows := [["1", "100.0"], ["2", "200.5"]] }
    (by decide) (by decide) rfl (by decide) (by decide)
  exact ⟨h.1, h.2.1, by rw [h.2.2]; decide⟩

/-- C5: no stage catches an error.  A missing file aborts before the
upload with `FileNotFoundError` and an untouched store; an unreachable
store aborts the upload with `ConnectionError` and an untouched store;
a Verifier failure surfaces as the run's error unchanged, with nothing
printed and no report — fail-fast, no recovery. -/
theorem c5_fail_fast :
    (∀ (w : World) (cs : String),
      lookupKey w.vars "database_url" = some cs →
      lookupKey w.files "data/loan.csv" = none →
      runScript w =
        { store := w.store, output := [], trace := [Event.engineCreate],
          report := none, error := some PipeError.fileNotFoundError }) ∧
    (∀ (w : World) (cs : String) (file : CsvFile),
      lookupKey w.vars "database_url" = some cs →
      lookupKey w.files "data/loan.csv" = some file →
      w.connOk = false →
      runScript w =
        { store := w.store, output := [],
          trace := [Event.engineCreate, Event.fileRead "data/loan.csv"],
          report := none, error := some PipeError.connectionError }) ∧
    (∀ (w : World) (cs : String) (file : CsvFile) (e : PipeError),
      lookupKey w.vars "database_url" = some cs →
      lookupKey w.files "data/loan.csv" = some file →
      w.connOk = true →
      verifyStage (readCsv file).rows.length true
        (w.external (toSqlReplace (readCsv file) "loan_data" w.store false))
        = Except.error e →
      (runScript w).error = some e ∧ (runScript w).output = [] ∧
      (runScript w).report = none) := by
  refine ⟨?_, ?_, ?_⟩
  · intro w cs hv hf
    rw [runScript, hv, hf]
  · intro w cs file hv hf hc
    rw [runScript, hv, hf]
    simp [hc]
  · intro w cs file e hv hf hc hvs
    rw [runScript, hv, hf]
    simp only [hc, if_true]
    rw [hvs]
    exact ⟨rfl, rfl, rfl⟩

/-- C5 witness: a missing file, an unreachable store, and an
out-of-band table drop each abort their run with the stage's own
error. -/
theorem c5_fail_fast_witness :
    runScript noFileWorld =
      { store := [], output := [], trace := [Event.engineCreate],
        report := none, error := some PipeError.fileNotFoundError } ∧
    runScript downWorld =
      { store := [], output := [],
        trace := [Event.engineCreate, Event.fileRead "data/loan.csv"],
        report := none, error := some PipeError.connectionError } ∧
    (runScript droppedWorld).error = some PipeError.queryError :=
  ⟨c5_fail_fast.1 noFileWorld "postgresql://user:pw@host/db" (by decide) rfl,
   c5_fail_fast.2.1 downWorld "postgresql://user:pw@host/db" scenarioFile
     (by decide) (by decide) rfl,
   (c5_fail_fast.2.2 droppedWorld "postgresql://user:pw@host/db" scenarioFile
     PipeError.queryError (by decide) (by decide) rfl rfl).1⟩

/-- C6: `scalar_one` yields a value exactly on a one-row result and
fails as a `QueryError` on zero or several rows; an unreachable store
fails the Verifier as a `ConnectionError`; a count query on a missing
table fails the Verifier as a `QueryError` — it never proceeds with an
ill-formed count. -/
theorem c6_count_cardinality :
    (∀ rows : List Nat, rows.length ≠ 1 →
      scalarOne rows = Except.error PipeError.queryError) ∧
    (∀ (rows : List Nat) (n : Nat),
      scalarOne rows = Except.ok n → rows = [n]) ∧
    (∀ (store : Store) (dfRow : Nat),
      verifyStage dfRow false store = Except.error PipeError.connectionError) ∧
    (∀ (store : Store) (dfRow : Nat),
      lookupTable store "loan_data" = none →
      verifyStage dfRow true store = Except.error PipeError.queryError) := by
  refine ⟨?_, ?_, ?_, ?_⟩
  · intro rows h
    rcases rows with _ | ⟨x, _ | ⟨y, rest⟩⟩
    · rfl
    · exact absurd rfl h
    · rfl
  · intro rows n h
    rcases rows with _ | ⟨x, _ | ⟨y, rest⟩⟩
    · exact absurd h (by simp [scalarOne])
    · simp [scalarOne] at h
      rw [h]
    · exact absurd h (by simp [scalarOne])
  · intro store dfRow
    rfl
  · intro store dfRow h
    simp [verifyStage, countQuery, h]

/-- C6 witness: zero-row and two-row results fail `scalar_one`; a dead
connection and a missing table fail the Verifier with the right error
kinds. -/
theorem c6_count_cardinality_witness :
    scalarOne [] = Except.error PipeError.queryError ∧
    scalarOne [3, 4] = Except.error PipeError.queryError ∧
    verifyStage 3 false [] = Except.error PipeError.connectionError ∧
    verifyStage 3 true [] = Except.error PipeError.queryError :=
  ⟨c6_count_cardinality.1 [] (by decide),
   c6_count_cardinality.1 [3, 4] (by decide),
   c6_count_cardinality.2.2.1 [] 3,
   c6_count_cardinality.2.2.2 [] 3 rfl⟩

/-- C7 counterexample: in a complete successful run the upload does
happen and the explicit connection is opened exactly once, yet no
upload event falls inside that connection's open window — the upload
runs through the engine on line 19 before `engine.connect()` on
line 34, so the "single connection used for both the upload and the
verification query" of the claim does not exist. -/
theorem c7_counterexample :
    Event.toSqlUpload "loan_data" ∈ (runScript scenarioWorld).trace ∧
    (runScript scenarioWorld).trace.count Event.connOpen = 1 ∧
    uploadUsesConn (runScript scenarioWorld).trace = false := by
  decide

/-- C7 (amended): the explicit connection is acquired at most once per
run, is used only for the verification query — the upload is performed
through the engine before it is opened — and whenever it is opened it
is closed when the verification step completes, on both the success
and the error path. -/
theorem c7_connection_scope (w : World) :
    (runScript w).trace.count Event.connOpen ≤ 1 ∧
    (runScript w).trace.count Event.connClose
      = (runScript w).trace.count Event.connOpen ∧
    uploadUsesConn (runScript w).trace = false ∧
    (Event.connOpen ∈ (runScript w).trace →
      connWindow (runScript w).trace = [Event.queryExec]) := by
  rcases runScript_trace_cases w with h | h | h | h <;> rw [h] <;>
    exact ⟨by decide, by decide, by decide, by decide⟩

/-- C7 witness: in the scenario run the connection is opened and its
open window holds exactly the query execution. -/
theorem c7_connection_scope_witness :
    connWindow (runScript scenarioWorld).trace = [Event.queryExec] :=
  (c7_connection_scope scenarioWorld).2.2.2 (by decide)

/-- C8: with no out-of-band interference, running the script a second
time on the store the first run produced leaves the store unchanged —
the run is idempotent at the table level. -/
theorem c8_idempotent (w : World) (he : w.external = id) :
    (runScript { w with store := (runScript w).store }).store
      = (runScript w).store := by
  cases hv : lookupKey w.vars "database_url" with
  | none => simp [runScript, hv]
  | some cs =>
    cases hf : lookupKey w.files "data/loan.csv" with
    | none => simp [runScript, hv, hf]
    | some file =>
      by_cases hc : w.connOk = true
      · have h1 := runScript_store_ok w cs file hv hf hc
        have h2 := runScript_store_ok { w with store := (runScript w).store }
          cs file hv hf hc
        rw [h2, h1]
        simp only [he, id_eq, toSqlReplace]
        exact setTable_setTable _ _ _ _
      · have hc' : w.connOk = false := by
          cases hcc : w.connOk
          · rfl
          · exact absurd hcc hc
        simp [runScript, hv, hf, hc']

/-- C8 witness: rerunning the scenario world on its own output store
reproduces the same store. -/
theorem c8_idempotent_witness :
    (runScript { scenarioWorld with store := (runScript scenarioWorld).store }).store
      = (runScript scenarioWorld).store :=
  c8_idempotent scenarioWorld rfl

end NeonSqlUpload
